import Mathlib

/-!
Shallow embedding of `contentcuration/automation/utils/appnexus/base.py`:
the connection-age session wrapper (`SessionWithMaxConnectionAge`), the
request/response data model (`BackendRequest`, `BackendResponse`), and the
abstract `Backend` service (singleton construction, URL building, retrying
dispatch `_make_request`, `connect`, `make_request`, `get_instance`).

Python mutable state is made explicit: the per-class singleton cell becomes a
`ClassState` value threaded through construction, the in-place mutation of
`request.tried` becomes the second component of `_make_request`'s result, and
object attribute dictionaries become insertion-ordered association lists.
Machine-level concerns do not arise (all counters are unbounded Python ints).
-/

namespace Appnexus

/-- Python values that appear as attribute or JSON-object contents in this
module (strings, ints, `None`). -/
inductive PyVal
  | int (n : Int)
  | str (s : String)
  | noneV
deriving DecidableEq

/-- Attribute / dict lookup on an insertion-ordered association list
(first match wins; Python dicts have unique keys, kept unique by `dictSet`). -/
def lookupAttr : List (String × PyVal) → String → Option PyVal
  | [], _ => none
  | (k, v) :: rest, key => if k = key then some v else lookupAttr rest key

/-- Python dict assignment / `setattr`: overwrite the value in place when the
key exists (keeping its position), otherwise append the new entry. -/
def dictSet : List (String × PyVal) → String → PyVal → List (String × PyVal)
  | [], key, v => [(key, v)]
  | (k, w) :: rest, key, v =>
      if k = key then (key, v) :: rest else (k, w) :: dictSet rest key v

/-- Python `dict.update`: assign every entry of `other`, in order. -/
def dictUpdate (d other : List (String × PyVal)) : List (String × PyVal) :=
  other.foldl (fun acc kv => dictSet acc kv.1 kv.2) d

/-- Python `s.lstrip("/")`: drop every leading `/`. -/
def lstripSlash (s : String) : String :=
  String.mk (s.toList.dropWhile (fun c => c = '/'))

/-- Python `s.rstrip("/")`: drop every trailing `/`. -/
def rstripSlash (s : String) : String :=
  String.mk (((s.toList.reverse).dropWhile (fun c => c = '/')).reverse)

/-- `Backend._construct_full_url` (base.py lines 69-78).  `self.base_url` and
`self.url_prefix` are the `base_url` and `urlPfx` parameters (Python string
truthiness is nonemptiness), `path` is the argument.  The source appends
`base_url.rstrip("/")`, `url_prefix.rstrip("/").lstrip("/")` and
`path.lstrip("/")` to `url_array` under truthiness guards and joins with "/". -/
def _construct_full_url (base_url urlPfx path : String) : String :=
  let a0 : List String := []
  let a1 := if base_url ≠ "" then a0 ++ [rstripSlash base_url] else a0
  let a2 := if urlPfx ≠ "" then a1 ++ [lstripSlash (rstripSlash urlPfx)] else a1
  let a3 := if path ≠ "" then a2 ++ [lstripSlash path] else a2
  String.intercalate "/" a3

/-- The URL-construction rule exactly as the specification words it: the three
stripped segments, each included if the corresponding input is non-empty,
joined by "/" (for the refinement comparison with `_construct_full_url`). -/
def buildFullUrl_spec (base_url urlPfx path : String) : String :=
  String.intercalate "/"
    ((if base_url = "" then [] else [rstripSlash base_url]) ++
     (if urlPfx = "" then [] else [lstripSlash (rstripSlash urlPfx)]) ++
     (if path = "" then [] else [lstripSlash path]))

/-- State of a `SessionWithMaxConnectionAge`: `age` and `last_used` are the
instance attributes; `handleId` identifies the underlying transport handle
(the state `requests.Session.__init__` builds), so that "closed and replaced
by a fresh one" is observable as a change of identity. -/
structure SessionState where
  age : Nat
  last_used : Nat
  handleId : Nat
deriving DecidableEq

/-- `SessionWithMaxConnectionAge.request` (lines 21-29), state part: if
`current_time - last_used > age` the handle is closed and re-created
(`self.__init__(self.age)`, giving the fresh `freshId`); in every case
`last_used` is then set to `current_time` before delegating to the transport,
so it is updated whether or not the underlying call succeeds. -/
def session_request (s : SessionState) (current_time freshId : Nat) : SessionState :=
  if s.age < current_time - s.last_used then
    { age := s.age, last_used := current_time, handleId := freshId }
  else
    { age := s.age, last_used := current_time, handleId := s.handleId }

/-- The `requests.exceptions` classes named in `Backend._make_request`'s
except clauses (base.py lines 92-134). -/
inductive RequestsExc
  | connectionError
  | sslError
  | timeout
  | connectTimeout
  | readTimeout
  | tooManyRedirects
  | httpError
  | urlRequired
  | missingSchema
  | invalidSchema
  | invalidURL
  | invalidHeader
  | invalidJSONError
  | contentDecodingError
  | chunkedEncodingError
deriving DecidableEq

/-- isinstance(e, requests.exceptions.RequestException): every class in
`RequestsExc` derives from `RequestException` (requests/exceptions.py), so
this holds of every exception the transport can raise here. -/
def isRequestException (_e : RequestsExc) : Bool := true

/-- isinstance(e, requests.exceptions.ConnectionError): in requests,
`SSLError` and `ConnectTimeout` are subclasses of `ConnectionError`. -/
def isConnectionErrorExc : RequestsExc → Bool
  | .connectionError => true
  | .sslError => true
  | .connectTimeout => true
  | _ => false

/-- isinstance(e, requests.exceptions.SSLError). -/
def isSSLError : RequestsExc → Bool
  | .sslError => true
  | _ => false

/-- isinstance against the tuple (Timeout, ConnectTimeout, ReadTimeout);
`ConnectTimeout` and `ReadTimeout` are subclasses of `Timeout`. -/
def isTimeoutClass : RequestsExc → Bool
  | .timeout => true
  | .connectTimeout => true
  | .readTimeout => true
  | _ => false

/-- isinstance against the tuple (TooManyRedirects, HTTPError). -/
def isRedirectOrHTTPError : RequestsExc → Bool
  | .tooManyRedirects => true
  | .httpError => true
  | _ => false

/-- isinstance against the tuple (URLRequired, MissingSchema, InvalidSchema,
InvalidURL, InvalidHeader, InvalidJSONError). -/
def isInvalidRequestExc : RequestsExc → Bool
  | .urlRequired => true
  | .missingSchema => true
  | .invalidSchema => true
  | .invalidURL => true
  | .invalidHeader => true
  | .invalidJSONError => true
  | _ => false

/-- isinstance against the tuple (ContentDecodingError, ChunkedEncodingError). -/
def isDecodingErrorExc : RequestsExc → Bool
  | .contentDecodingError => true
  | .chunkedEncodingError => true
  | _ => false

/-- Modelled from the spec: the closed error taxonomy of the repository's
`errors` module (imported by base.py as `from . import errors` but not under
src/): ConnectionError, TimeoutError, HttpError, InvalidRequest and
InvalidResponse, each a distinct exception class carrying a message. -/
inductive AppError
  | connectionError (msg : String)
  | timeoutError (msg : String)
  | httpError (msg : String)
  | invalidRequest (msg : String)
  | invalidResponse (msg : String)
deriving DecidableEq

/-- Exceptions a call into this module can terminate with: a taxonomy error
from the `errors` module, a Python `AttributeError` / `TypeError` /
`NotImplementedError`, or a transport exception that matched no except clause
and propagates.  `fuelOut` is an artifact of the fuel parameter of
`_make_request_go` and is never produced for the fuel `_make_request`
supplies (the recursion depth is bounded by `max_retries`). -/
inductive PyErr
  | app (e : AppError)
  | attributeError
  | typeError
  | notImplementedError
  | uncaughtExc (e : RequestsExc)
  | fuelOut
deriving DecidableEq

/-- Result of `response.json()`: the parsed JSON object's key/value pairs, or
`err` when the body is not valid JSON (Python raises `ValueError`). -/
inductive JsonResult
  | ok (fields : List (String × PyVal))
  | err
deriving DecidableEq

/-- The response object the transport returns: its HTTP status code and the
outcome of parsing its body as JSON. -/
structure HttpResponse where
  status_code : Nat
  jsonBody : JsonResult
deriving DecidableEq

/-- `BackendRequest` (lines 31-42) after a plain `__init__` with no extra
keyword arguments: the core fields.  The Python defaults are
`params=None, data=None, json=None, headers=None, max_retries=1`, and
`tried` starts at 0.  (`backendRequest_init_attrs` below models the
attribute-level assignment semantics including `**kwargs`.) -/
structure BackendRequest where
  method : String
  path : String
  params : PyVal
  data : PyVal
  json : PyVal
  headers : PyVal
  max_retries : Nat
  tried : Nat
deriving DecidableEq

/-- One transport call (`requests.Session.request`): either a response or a
raised `requests` exception. -/
inductive TransportOutcome
  | success (resp : HttpResponse)
  | exc (e : RequestsExc)
deriving DecidableEq

/-- The transport boundary: given the request (with `tried` already
incremented to the current attempt number) and the constructed URL, the
environment decides the outcome of `self.session.request(...)`. -/
abbrev Transport := BackendRequest → String → TransportOutcome

/-- `Backend._make_request` (lines 80-134), with an explicit fuel parameter
standing in for the (budget-bounded) recursion.  Each step: build the full
URL, increment `request.tried`, attempt the transport call, and on an
exception run the except clauses in source order.  The first clause
`(requests.exceptions.ConnectionError, requests.exceptions.RequestException)`
retries while `tried < max_retries`, else raises `errors.ConnectionError`;
the later clauses translate SSL, timeout, redirect/HTTP, malformed-request
and decoding failures.  Returns the outcome together with the final value of
the mutated `request.tried`. -/
def _make_request_go (base_url urlPfx : String) (t : Transport) :
    Nat → BackendRequest → (Except PyErr HttpResponse) × Nat
  | 0, req => (.error .fuelOut, req.tried)
  | fuel + 1, req =>
      let url := _construct_full_url base_url urlPfx req.path
      let req2 : BackendRequest := { req with tried := req.tried + 1 }
      match t req2 url with
      | .success resp => (.ok resp, req2.tried)
      | .exc e =>
          if isConnectionErrorExc e || isRequestException e then
            if req2.max_retries ≤ req2.tried then
              (.error (.app (.connectionError "Connection error occurred.")), req2.tried)
            else
              _make_request_go base_url urlPfx t fuel req2
          else if isSSLError e then
            (.error (.app (.connectionError ("Unable to connect to " ++ url))), req2.tried)
          else if isTimeoutClass e then
            (.error (.app (.timeoutError ("Timeout occurred while connecting to " ++ url))), req2.tried)
          else if isRedirectOrHTTPError e then
            (.error (.app (.httpError ("HTTP error occurred while connecting to " ++ url))), req2.tried)
          else if isInvalidRequestExc e then
            (.error (.app (.invalidRequest ("Invalid request to " ++ url))), req2.tried)
          else if isDecodingErrorExc e then
            (.error (.app (.invalidResponse ("Invalid response from " ++ url))), req2.tried)
          else
            (.error (.uncaughtExc e), req2.tried)

/-- `Backend._make_request` on a genuine `BackendRequest`.  The fuel
`max_retries + 1` strictly exceeds the recursion depth (each recursive call
requires `tried < max_retries` after an increment), so `fuelOut` is
unreachable. -/
def _make_request (base_url urlPfx : String) (t : Transport) (req : BackendRequest) :
    (Except PyErr HttpResponse) × Nat :=
  _make_request_go base_url urlPfx t (req.max_retries + 1) req

/-- `Backend.connect` (lines 136-146): dispatch a GET `BackendRequest` for
`self.connect_endpoint` (Python defaults: `max_retries=1`, `tried=0`), return
`False` when the status code differs from 200 and `True` otherwise; the
surrounding `except Exception` turns every raised failure into `False`. -/
def connect (base_url urlPfx connect_endpoint : String) (t : Transport) : Bool :=
  match _make_request base_url urlPfx t
      ⟨"GET", connect_endpoint, .noneV, .noneV, .noneV, .noneV, 1, 0⟩ with
  | (.ok resp, _) => if resp.status_code ≠ 200 then false else true
  | (.error _, _) => false

/-- Lines 149-156 of `Backend.make_request`, given a response object:
`info = response.json()` (a `ValueError` is caught and re-raised as
`errors.InvalidResponse("Invalid response from backend")`), then
`info.update(...)` merges `status_code` into the parsed dict, and
`BackendResponse(**info)` turns it into the returned envelope (an object
whose attribute list is exactly `info`). -/
def processResponse (resp : HttpResponse) : Except PyErr (List (String × PyVal)) :=
  match resp.jsonBody with
  | .err => .error (.app (.invalidResponse "Invalid response from backend"))
  | .ok info => .ok (dictUpdate info [("status_code", .int (Int.ofNat resp.status_code))])

/-- The argument `_make_request` actually receives when called from
`make_request`: the code passes the raw `path` string where a
`BackendRequest` object is expected. -/
inductive PyArgVal
  | strArg (s : String)
  | reqArg (r : BackendRequest)

/-- `Backend._make_request` as invoked dynamically: its first statement
(line 81) evaluates `request.path`, so a `str` argument raises
`AttributeError` before any transport attempt; a genuine `BackendRequest`
behaves as `_make_request`. -/
def _make_request_dyn (base_url urlPfx : String) (t : Transport) :
    PyArgVal → Except PyErr HttpResponse
  | .strArg _ => .error .attributeError
  | .reqArg r => (_make_request base_url urlPfx t r).1

/-- `Backend.make_request` (lines 148-157): executes
`self._make_request(path, **kwargs)` — binding extra keywords raises
`TypeError` (`_make_request` accepts only `request`), and otherwise the raw
`path` string is passed as `request`; a raised exception propagates (the
`try` starts only after the response is obtained), and on a response the
body is parsed and merged by `processResponse`. -/
def make_request (base_url urlPfx : String) (t : Transport) (path : String)
    (kwargs : List (String × PyVal)) : Except PyErr (List (String × PyVal)) :=
  if kwargs.isEmpty then
    match _make_request_dyn base_url urlPfx t (.strArg path) with
    | .error e => .error e
    | .ok resp => processResponse resp
  else
    .error .typeError

/-- `BackendRequest.__init__` (lines 31-42) at the Python attribute level:
the named parameters are assigned to attributes in source order, `tried` is
set to 0, and then every extra keyword from `**kwargs` is `setattr`'d onto
the object, in order — after the core fields. -/
def backendRequest_init_attrs (method path params data json headers max_retries : PyVal)
    (kwargs : List (String × PyVal)) : List (String × PyVal) :=
  let o : List (String × PyVal) := []
  let o := dictSet o "method" method
  let o := dictSet o "path" path
  let o := dictSet o "params" params
  let o := dictSet o "data" data
  let o := dictSet o "json" json
  let o := dictSet o "headers" headers
  let o := dictSet o "max_retries" max_retries
  let o := dictSet o "tried" (.int 0)
  kwargs.foldl (fun acc kv => dictSet acc kv.1 kv.2) o

/-- A constructed `Backend` object: its Python identity (`objId`), its
`url_prefix` attribute (`urlPfx`), and the identity of the
`SessionWithMaxConnectionAge` assigned by `__init__` (none between `__new__`
and `__init__`). -/
structure BackendObj where
  objId : Nat
  urlPfx : String
  sessionId : Option Nat
deriving DecidableEq

/-- Per-concrete-class state: the `_instance` class attribute plus allocation
counters for fresh object and session identities. -/
structure ClassState where
  _instance : Option BackendObj
  nextObjId : Nat
  nextSessionId : Nat
deriving DecidableEq

/-- `Backend.__new__` (lines 59-64): when `_instance` is not yet an instance
of the class, allocate a fresh object (`object.__new__`), store it in
`_instance` and set its `url_prefix`; always return `_instance`. -/
def backend_new (st : ClassState) (urlPfx : String) : ClassState × Nat :=
  match st._instance with
  | some o => (st, o.objId)
  | none =>
      ({ _instance := some { objId := st.nextObjId, urlPfx := urlPfx, sessionId := none },
         nextObjId := st.nextObjId + 1,
         nextSessionId := st.nextSessionId }, st.nextObjId)

/-- `Backend.__init__` (lines 65-67): runs on the object `__new__` returned —
the singleton — assigning it a fresh `SessionWithMaxConnectionAge` and
overwriting its `url_prefix` with this call's argument. -/
def backend_init (st : ClassState) (urlPfx : String) : ClassState :=
  match st._instance with
  | some o =>
      { _instance := some { objId := o.objId, urlPfx := urlPfx, sessionId := some st.nextSessionId },
        nextObjId := st.nextObjId,
        nextSessionId := st.nextSessionId + 1 }
  | none => st

/-- The Python construction protocol for `ConcreteBackend(url_prefix)`:
`cls.__new__` followed by `cls.__init__` on the object it returned. -/
def backend_construct (st : ClassState) (urlPfx : String) : ClassState × Nat :=
  let r := backend_new st urlPfx
  (backend_init r.1 urlPfx, r.2)

/-- `Backend.get_instance` (lines 159-162): return `cls._instance` if it is
truthy (any object is), else `cls._create_instance(...)`, which on the base
class raises `NotImplementedError` (lines 164-167). -/
def get_instance (st : ClassState) : Except PyErr (ClassState × Nat) :=
  match st._instance with
  | some o => .ok (st, o.objId)
  | none => .error .notImplementedError

/-! ## Helper lemmas -/

/-- Looking up a key right after `dictSet` of that key yields the assigned
value (whether or not the key was present before). -/
theorem lookupAttr_dictSet (d : List (String × PyVal)) (key : String) (v : PyVal) :
    lookupAttr (dictSet d key v) key = some v := by
  induction d with
  | nil => simp [dictSet, lookupAttr]
  | cons hd tl ih =>
      obtain ⟨k, w⟩ := hd
      by_cases h : k = key
      · simp [dictSet, lookupAttr, h]
      · simp [dictSet, lookupAttr, h, ih]

/-- Against a transport that raises `requests.exceptions.ConnectionError` on
every attempt, the dispatch loop (with enough fuel) retries until `tried`
reaches `max_retries` exactly and terminates with `errors.ConnectionError`. -/
theorem go_alwaysConnFail (b u : String) :
    ∀ (fuel : Nat) (req : BackendRequest), req.tried < req.max_retries →
      req.max_retries - req.tried < fuel →
      _make_request_go b u (fun _ _ => .exc .connectionError) fuel req
        = (.error (.app (.connectionError "Connection error occurred.")), req.max_retries) := by
  intro fuel
  induction fuel with
  | zero => intro req h1 h2; omega
  | succ fuel ih =>
      intro req h1 h2
      simp only [_make_request_go, isConnectionErrorExc, isRequestException, Bool.or_true,
        if_true]
      by_cases hle : req.max_retries ≤ req.tried + 1
      · have : req.tried + 1 = req.max_retries := by omega
        simp [hle, this]
      · have h1' : req.tried + 1 < req.max_retries := by omega
        have h2' : req.max_retries - (req.tried + 1) < fuel := by omega
        have := ih { req with tried := req.tried + 1 } h1' h2'
        simp [hle, this]

/-- Under any transport, when `tried` starts below `max_retries` the final
value of `tried` never exceeds `max_retries`. -/
theorem go_tried_le (b u : String) (t : Transport) :
    ∀ (fuel : Nat) (req : BackendRequest), req.tried < req.max_retries →
      (_make_request_go b u t fuel req).2 ≤ req.max_retries := by
  intro fuel
  induction fuel with
  | zero => intro req h1; simpa [_make_request_go] using h1.le
  | succ fuel ih =>
      intro req h1
      simp only [_make_request_go, isRequestException, Bool.or_true, if_true]
      cases ht : t { req with tried := req.tried + 1 }
          (_construct_full_url b u req.path) with
      | success resp => simp [ht]; omega
      | exc e =>
          simp only [ht]
          by_cases hle : req.max_retries ≤ req.tried + 1
          · simp [hle]; omega
          · have h1' : req.tried + 1 < req.max_retries := by omega
            have := ih { req with tried := req.tried + 1 } h1'
            simpa [hle] using this

/-! ## Claim theorems -/

/-- C1: the claim says a timeout raised by the transport on the first dispatch
attempt of a request with `maxRetries > 1` terminates immediately as a
`TimeoutError` with no further attempts.  On the code this is false: the first
except clause `(ConnectionError, RequestException)` also matches every
`requests` timeout (`Timeout`, `ConnectTimeout` and `ReadTimeout` all derive
from `RequestException`), so the timeout is retried like a transient
connection failure and the dedicated timeout clause is unreachable.  With
`max_retries = 2` and a `ReadTimeout` on attempt 1, the second attempt is
made and its response returned; with `ReadTimeout` on every attempt and
`max_retries = 3`, the final outcome is `errors.ConnectionError` after 3
attempts — never a `TimeoutError`. -/
theorem C1_timeout_retried :
    _make_request "https://api.example.com" "v1"
      (fun r _ => if r.tried = 1 then .exc .readTimeout else .success ⟨200, .ok []⟩)
      ⟨"GET", "things", .noneV, .noneV, .noneV, .noneV, 2, 0⟩
      = (.ok ⟨200, .ok []⟩, 2)
  ∧ _make_request "https://api.example.com" "v1" (fun _ _ => .exc .readTimeout)
      ⟨"GET", "things", .noneV, .noneV, .noneV, .noneV, 3, 0⟩
      = (.error (.app (.connectionError "Connection error occurred.")), 3) :=
  ⟨rfl, rfl⟩

/-- C2 counterexample: constructing the same concrete class twice, first with
`url_prefix = "a"` and then with `"b"`, returns the identical object (same
identity) both times, but after the second construction call its
`url_prefix` is no longer the `"a"` of the first call — `__init__` runs on
every construction call and overwrites it. -/
theorem C2_counterexample :
    ((backend_construct (backend_construct ⟨none, 0, 0⟩ "a").1 "b").2
        = (backend_construct ⟨none, 0, 0⟩ "a").2)
  ∧ ¬ (((backend_construct (backend_construct ⟨none, 0, 0⟩ "a").1 "b").1)._instance.map
        BackendObj.urlPfx = some "a") :=
  ⟨rfl, by decide⟩

/-- C2 (amended): at most one instance exists per concrete subclass and every
later construction or `get_instance` call returns the identical original
instance; `get_instance` leaves the state (hence the first call's
`url_prefix`) unchanged, but a later direct construction call re-runs
`__init__` on the singleton and overwrites `url_prefix` with the new
argument. -/
theorem C2_amended_singleton (p1 p2 : String) :
    ((backend_construct ⟨none, 0, 0⟩ p1).1._instance.map BackendObj.urlPfx = some p1)
  ∧ (get_instance (backend_construct ⟨none, 0, 0⟩ p1).1
        = .ok ((backend_construct ⟨none, 0, 0⟩ p1).1, (backend_construct ⟨none, 0, 0⟩ p1).2))
  ∧ ((backend_construct (backend_construct ⟨none, 0, 0⟩ p1).1 p2).2
        = (backend_construct ⟨none, 0, 0⟩ p1).2)
  ∧ ((backend_construct (backend_construct ⟨none, 0, 0⟩ p1).1 p2).1._instance.map
        BackendObj.urlPfx = some p2) :=
  ⟨rfl, rfl, rfl, rfl⟩

/-- C3: the claim says `make_request` dispatches a request built from its
arguments and, for a structured body `a = 1` with status 201, returns the
envelope `a = 1, statusCode = 201`.  On the code this is false: `make_request`
passes the raw `path` string (and any extra keywords) to `_make_request`, so
every call raises `AttributeError` (`request.path` on a `str`) — or
`TypeError` when keywords are forwarded — before any dispatch; no envelope is
ever produced, even for the claim's concrete input. -/
theorem C3_make_request_no_dispatch :
    make_request "https://api.example.com" "v1"
      (fun _ _ => .success ⟨201, .ok [("a", .int 1)]⟩) "things" []
      = .error .attributeError
  ∧ ∀ (b u : String) (t : Transport) (p : String) (kwargs : List (String × PyVal)),
      make_request b u t p kwargs = .error .attributeError
    ∨ make_request b u t p kwargs = .error .typeError := by
  constructor
  · rfl
  · intro b u t p kwargs
    cases kwargs with
    | nil => left; rfl
    | cons hd tl => right; rfl

/-- C4: against a transport that always raises a transient connection failure,
a dispatch starting at `tried = 0` with `max_retries = n ≥ 1` makes exactly
`n` attempts (each attempt increments `tried` by one, so the final `tried`
is `n`) and terminates with `errors.ConnectionError`; in particular `n = 1`
terminates on the first failure.  Moreover under every transport the final
`tried` never exceeds `max_retries`. -/
theorem C4_retry_bound (n : Nat) (hn : 1 ≤ n) (t : Transport) (b u m p : String) :
    _make_request b u (fun _ _ => .exc .connectionError)
        ⟨m, p, .noneV, .noneV, .noneV, .noneV, n, 0⟩
      = (.error (.app (.connectionError "Connection error occurred.")), n)
  ∧ (_make_request b u t ⟨m, p, .noneV, .noneV, .noneV, .noneV, n, 0⟩).2 ≤ n := by
  constructor
  · have := go_alwaysConnFail b u (n + 1) ⟨m, p, .noneV, .noneV, .noneV, .noneV, n, 0⟩
      (by simpa using hn) (by simp)
    simpa [_make_request] using this
  · have := go_tried_le b u t (n + 1) ⟨m, p, .noneV, .noneV, .noneV, .noneV, n, 0⟩
      (by simpa using hn)
    simpa [_make_request] using this

/-- Witness for `C4_retry_bound` at `n = 3`: three attempts are made and the
outcome is `errors.ConnectionError`. -/
theorem C4_retry_bound_witness :
    (1 ≤ 3)
  ∧ (_make_request "b" "" (fun _ _ => .exc .connectionError)
        ⟨"GET", "p", .noneV, .noneV, .noneV, .noneV, 3, 0⟩
      = (.error (.app (.connectionError "Connection error occurred.")), 3)
  ∧ (_make_request "b" "" (fun _ _ => .exc .connectionError)
        ⟨"GET", "p", .noneV, .noneV, .noneV, .noneV, 3, 0⟩).2 ≤ 3) :=
  ⟨by decide, C4_retry_bound 3 (by decide) (fun _ _ => .exc .connectionError) "b" "" "GET" "p"⟩

/-- C5: `connect` never propagates a failure — it is a total Boolean function
of the transport behaviour.  It returns `true` exactly when the dispatch of
the GET to `connect_endpoint` succeeds with status code exactly 200; for a
transport raising any of the `requests` exception kinds it returns `false`,
and for a successful response it returns `true` iff the status is 200. -/
theorem C5_connect_total (b u ce : String) (t : Transport) :
    (connect b u ce t = true ↔
       ∃ resp, (_make_request b u t ⟨"GET", ce, .noneV, .noneV, .noneV, .noneV, 1, 0⟩).1 = .ok resp
         ∧ resp.status_code = 200)
  ∧ (∀ e : RequestsExc, connect b u ce (fun _ _ => .exc e) = false)
  ∧ (∀ (s : Nat) (body : JsonResult),
       connect b u ce (fun _ _ => .success ⟨s, body⟩) = decide (s = 200)) := by
  refine ⟨?_, ?_, ?_⟩
  · unfold connect
    rcases hr : _make_request b u t ⟨"GET", ce, .noneV, .noneV, .noneV, .noneV, 1, 0⟩ with ⟨res, k⟩
    cases res with
    | ok resp =>
        by_cases hs : resp.status_code = 200
        · simp [hs]
        · simp [hs]
    | error e => simp
  · intro e
    cases e <;> rfl
  · intro s body
    have hconn : connect b u ce (fun _ _ => .success ⟨s, body⟩)
        = if s ≠ 200 then false else true := rfl
    by_cases hs : s = 200
    · subst hs; simp [hconn]
    · simp [hconn, hs]

/-- C6: `_construct_full_url` agrees with the specification's wording — the
three segments `base_url` (trailing slashes stripped), `url_prefix` (leading
and trailing slashes stripped) and `path` (leading slashes stripped), each
included when the corresponding input is non-empty, joined by "/" — for all
inputs; and it produces the two concrete example URLs of the spec. -/
theorem C6_url_join (b u p : String) :
    _construct_full_url b u p = buildFullUrl_spec b u p
  ∧ _construct_full_url "https://api.example.com/" "/v1/" "/things"
      = "https://api.example.com/v1/things"
  ∧ _construct_full_url "https://api.example.com/" "" "/things"
      = "https://api.example.com/things" := by
  refine ⟨?_, by decide, by decide⟩
  unfold _construct_full_url buildFullUrl_spec
  by_cases hb : b = "" <;> by_cases hu : u = "" <;> by_cases hp : p = "" <;>
    simp [hb, hu, hp]

/-- C7: the claim says a secure-transport (SSL) failure fails immediately with
`ConnectionError` and is never retried.  On the code the "never retried" part
is false: `SSLError` is a subclass of `requests.exceptions.ConnectionError`,
so the first, retrying except clause catches it and retries while budget
remains (the dedicated `SSLError` clause is unreachable).  With
`max_retries = 2` and an `SSLError` on attempt 1, a second attempt is made
and its response returned; with `SSLError` on every attempt and
`max_retries = 3`, the outcome is the budget-exhaustion
`ConnectionError "Connection error occurred."` after 3 attempts, not the SSL
clause's "Unable to connect" error. -/
theorem C7_ssl_retried :
    _make_request "https://api.example.com" "v1"
      (fun r _ => if r.tried = 1 then .exc .sslError else .success ⟨200, .ok []⟩)
      ⟨"GET", "things", .noneV, .noneV, .noneV, .noneV, 2, 0⟩
      = (.ok ⟨200, .ok []⟩, 2)
  ∧ _make_request "https://api.example.com" "v1" (fun _ _ => .exc .sslError)
      ⟨"GET", "things", .noneV, .noneV, .noneV, .noneV, 3, 0⟩
      = (.error (.app (.connectionError "Connection error occurred.")), 3) :=
  ⟨rfl, rfl⟩

/-- C8: for all ages `a` and idle times `t`, a request issued at time
`last_used + t` updates `last_used` to that time in every case, and the
handle used is a fresh instance (different from the previous one) exactly
when `t > a`, the same instance when `t ≤ a`. -/
theorem C8_session_age (a t lastu h fresh : Nat) (hne : fresh ≠ h) :
    (session_request ⟨a, lastu, h⟩ (lastu + t) fresh).last_used = lastu + t
  ∧ (a < t → (session_request ⟨a, lastu, h⟩ (lastu + t) fresh).handleId ≠ h)
  ∧ (t ≤ a → (session_request ⟨a, lastu, h⟩ (lastu + t) fresh).handleId = h) := by
  by_cases hat : a < t
  · refine ⟨?_, fun _ => ?_, fun hta => absurd hat (by omega)⟩ <;>
      simp [session_request, Nat.add_sub_cancel_left, hat, hne]
  · refine ⟨?_, fun hat2 => absurd hat2 hat, fun _ => ?_⟩ <;>
      simp [session_request, Nat.add_sub_cancel_left, hat]

/-- Witness for `C8_session_age`: with age 10 and idle time 11 the handle is
replaced by the fresh one. -/
theorem C8_session_age_witness :
    ((1 : Nat) ≠ 0 ∧ 10 < 11)
  ∧ (session_request ⟨10, 0, 0⟩ (0 + 11) 1).handleId ≠ 0 :=
  ⟨⟨by decide, by decide⟩, (C8_session_age 10 11 0 0 1 (by decide)).2.1 (by decide)⟩

/-- C9: whenever the response body parses as a structured mapping, the
envelope built by the response-processing step of `make_request` carries a
`status_code` entry equal to the HTTP status code — and when the parsed body
already contains a `status_code` key, `dict.update` overwrites it with the
HTTP status (shown concretely for body `status_code = 7, a = 1` with HTTP
status 201). -/
theorem C9_status_code_overwrite (info : List (String × PyVal)) (status : Nat) :
    (∃ env, processResponse ⟨status, .ok info⟩ = .ok env
       ∧ lookupAttr env "status_code" = some (.int (Int.ofNat status)))
  ∧ processResponse ⟨201, .ok [("status_code", .int 7), ("a", .int 1)]⟩
      = .ok [("status_code", .int 201), ("a", .int 1)] := by
  refine ⟨⟨_, rfl, ?_⟩, rfl⟩
  exact lookupAttr_dictSet info "status_code" (.int (Int.ofNat status))

/-- C10: in `BackendRequest.__init__` the `**kwargs` extension bag is applied
after the core fields, so an extra keyword colliding with a core field
overrides its initial value: a `tried` keyword makes the attempt counter
start at that value instead of 0 (shown generally and for `tried = 5`). -/
theorem C10_extra_kwargs_override (m p pa d j hd mr v : PyVal) :
    lookupAttr (backendRequest_init_attrs m p pa d j hd mr [("tried", v)]) "tried" = some v
  ∧ lookupAttr (backendRequest_init_attrs (.str "GET") (.str "x")
        .noneV .noneV .noneV .noneV (.int 1) [("tried", .int 5)]) "tried" = some (.int 5) := by
  refine ⟨?_, rfl⟩
  exact lookupAttr_dictSet _ "tried" v

end Appnexus
